import Mathlib

/-!
Shallow embedding of the step-recording pipeline of hostomani/steprecorder
(src/main.py, class StepsRecorder), together with proofs settling the
frozen claims about it.

Modelling conventions:
* Wall-clock times (Python float seconds from time.time) are modelled as
  integers ("ticks"); the debounce logic only subtracts and compares times,
  so the threshold behaviour is preserved.
* Values supplied by the operating system at each event (the event data,
  datetime.now().isoformat(), the frontmost application, the clipboard
  content, whether the screenshot capture succeeds) are packaged in an
  EventInput record.  A clipboard read failure (the try/except in
  _handle_copy_action) is collapsed into the empty string, which the code
  treats identically (`if content:`).
* The durable files are modelled as fields of the recorder state:
  `saved` holds the last content written to steps.json (none = never
  written), `reportGenerated` records that report.txt was written.
* Python's mutually recursive _add_step / stop pair is modelled with an
  explicit fuel parameter: `addStepFuel` is structurally recursive on the
  fuel, with the body of stop() inlined at the recursive call (stopFuel,
  defined right after, is the same body and agrees definitionally).
  A result of `none` means the call never completes normally for that
  fuel; `addStep_diverges_at_max` shows this happens for every fuel once
  the step list has reached max_steps.
-/

namespace StepsRecorder

/-- The action types of src/main.py (enum ActionType). -/
inductive ActionType where
  | click
  | right_click
  | middle_click
  | key_press
  | key_combo
  | scroll
  | text_input
  | copy
  | paste
  | app_switch
  | system
deriving DecidableEq

/-- A value stored in a step's `details` mapping.  Python stores strings,
ints, floats and lists there; the recorder core only ever stores strings,
integers and the snapshot of the pressed-modifier set. -/
inductive DValue where
  | s (v : String)
  | n (v : Int)
  | mods (v : Finset String)
deriving DecidableEq

/-- dataclass ApplicationInfo of src/main.py. -/
structure ApplicationInfo where
  name : String
  bundle_id : Option String := none
  pid : Option Int := none
deriving DecidableEq

/-- dataclass Step of src/main.py (the `element` field is never set by the
recorder and is omitted). `details` is an association list keyed by the
Python dict keys. -/
structure Step where
  step_number : Nat
  timestamp : String
  action_type : ActionType
  position : Option (Int × Int) := none
  application : Option ApplicationInfo := none
  screenshot : Option String := none
  details : List (String × DValue) := []
deriving DecidableEq

/-- The fields of class RecorderConfig used by the recording pipeline.
`has_pyperclip` models the module-level HAS_PYPERCLIP flag checked inside
_handle_copy_action (RecorderConfig sets capture_clipboard to
True and HAS_PYPERCLIP). -/
structure RecorderConfig where
  session_name : String
  capture_screenshots : Bool
  capture_clipboard : Bool
  capture_keystrokes : Bool
  capture_scroll : Bool
  debounce_interval : Int
  max_steps : Nat
  has_pyperclip : Bool
deriving DecidableEq

/-- The JSON object written to steps.json by StepsRecorder.save. -/
structure SessionFile where
  session : String
  start_time : Option String
  total_steps : Nat
  steps : List Step
deriving DecidableEq

/-- The mutable state of a StepsRecorder instance, plus the modelled
contents of the durable files it writes. -/
structure RecorderState where
  steps : List Step
  step_counter : Nat
  last_event_time : Int
  running : Bool
  pressed_modifiers : Finset String
  saved : Option SessionFile
  reportGenerated : Bool
deriving DecidableEq

/-- self.modifier_keys: keycode to modifier-name table (src/main.py lines
191-196). -/
def modifier_keys : Nat → Option String
  | 56 => some "shift"
  | 59 => some "ctrl"
  | 58 => some "alt"
  | 55 => some "cmd"
  | _ => none

/-- Models _keycode_to_name (src/main.py lines 483-495). -/
def keycode_to_name (keycode : Nat) : String :=
  match keycode with
  | 36 => "Enter" | 48 => "Tab" | 49 => "Space" | 51 => "Delete"
  | 53 => "Escape" | 76 => "Enter" | 96 => "F5" | 97 => "F6"
  | 98 => "F7" | 99 => "F3" | 100 => "F8" | 101 => "F9"
  | 109 => "F10" | 103 => "F11" | 111 => "F12" | 105 => "F4"
  | 107 => "F2" | 113 => "F1" | 114 => "Help" | 115 => "Home"
  | 116 => "PageUp" | 117 => "ForwardDelete" | 118 => "F4"
  | 119 => "End" | 120 => "F2" | 121 => "PageDown" | 122 => "F1"
  | 123 => "Left" | 124 => "Right" | 125 => "Down" | 126 => "Up"
  | _ => "Key_" ++ toString keycode

/-- Python f-string formatting with spec 04d: decimal digits left-padded
with zeros to a minimum width of 4. -/
def pad4 (n : Nat) : String :=
  let s := toString n
  String.mk (List.replicate (4 - s.length) '0') ++ s

/-- Models _take_screenshot (src/main.py lines 511-532): on success the file
screenshot_NNNN.png (NNNN = current step_counter, zero padded) is written
under screenshots/ and its relative path returned; on any failure None is
returned.  Whether the capture provider succeeds is supplied by the
environment as `ok`. -/
def take_screenshot (st : RecorderState) (ok : Bool) : Option String :=
  if ok then some ("screenshots/screenshot_" ++ pad4 st.step_counter ++ ".png")
  else none

/-- StepsRecorder.save (src/main.py lines 575-591): overwrite steps.json
with the whole session. -/
def sessionFileOf (cfg : RecorderConfig) (steps : List Step) : SessionFile :=
  { session := cfg.session_name
    start_time := steps.head?.map (fun s => s.timestamp)
    total_steps := steps.length
    steps := steps }

/-- The state change performed by StepsRecorder.save. -/
def saveState (cfg : RecorderConfig) (st : RecorderState) : RecorderState :=
  { st with saved := some (sessionFileOf cfg st.steps) }

/-- The terminal SYSTEM step built by stop() via
_record_system_event("recorder_stopped", \x7b"total_steps": len(self.steps)\x7d)
(src/main.py lines 229 and 469-481). -/
def stoppedStep (st : RecorderState) (ts : String) : Step :=
  { step_number := st.step_counter
    timestamp := ts
    action_type := ActionType.system
    details := [("event", DValue.s "recorder_stopped"),
                ("total_steps", DValue.n (st.steps.length : Int))] }

/-- Models _add_step (src/main.py lines 534-546), with the body of stop()
(lines 220-240) inlined at the max-steps branch: stop() records the
terminal SYSTEM step through _add_step itself, so the two functions are
mutually recursive in the source.  The fuel argument bounds the recursion
depth; `none` means the call does not complete for that fuel (in Python
the recursion is unbounded and ends in a RecursionError). -/
def addStepFuel : Nat → RecorderConfig → String → RecorderState → Step →
    Option RecorderState
  | 0, _, _, _, _ => none
  | fuel + 1, cfg, ts, st, step =>
    if cfg.max_steps ≤ st.steps.length then
      -- stop(): self.running = False; tap disabled; record the
      -- recorder_stopped step; save; generate report
      let st1 := { st with running := false }
      match addStepFuel fuel cfg ts st1 (stoppedStep st1 ts) with
      | none => none
      | some st2 => some { saveState cfg st2 with reportGenerated := true }
    else
      let st1 := { st with steps := st.steps ++ [step],
                           step_counter := st.step_counter + 1 }
      if st1.steps.length % 5 = 0 then some (saveState cfg st1) else some st1

/-- StepsRecorder.stop (src/main.py lines 220-240) as an entry point:
record the terminal SYSTEM step (through _add_step), then save and
generate the report. -/
def stopFuel (fuel : Nat) (cfg : RecorderConfig) (ts : String)
    (st : RecorderState) : Option RecorderState :=
  let st1 := { st with running := false }
  match addStepFuel fuel cfg ts st1 (stoppedStep st1 ts) with
  | none => none
  | some st2 => some { saveState cfg st2 with reportGenerated := true }

/-- Models _record_system_event (src/main.py lines 469-481). -/
def recordSystemEvent (fuel : Nat) (cfg : RecorderConfig) (ts : String)
    (st : RecorderState) (event : String) (data : List (String × DValue)) :
    Option RecorderState :=
  addStepFuel fuel cfg ts st
    { step_number := st.step_counter
      timestamp := ts
      action_type := ActionType.system
      details := ("event", DValue.s event) :: data }

/-- The raw event data delivered by the Quartz event tap. -/
inductive CGEvent where
  | leftMouseDown (x y : Int)
  | rightMouseDown (x y : Int)
  | otherMouseDown (x y : Int)
  | keyDown (keycode : Nat) (unicode : String)
  | flagsChanged (keycode : Nat)
  | scrollWheel (x y : Int) (delta_y : Int)
deriving DecidableEq

/-- One invocation of the event callback: the raw event plus the values
the environment supplies during its handling. -/
structure EventInput where
  time : Int
  timestamp : String
  app : ApplicationInfo
  clipboard : String
  screenshot_ok : Bool
  event : CGEvent
deriving DecidableEq

/-- Models _handle_click (src/main.py lines 307-336). -/
def handleClick (fuel : Nat) (cfg : RecorderConfig) (inp : EventInput)
    (st : RecorderState) (x y : Int) (action_type : ActionType) :
    Option RecorderState :=
  let screenshot := if cfg.capture_screenshots
    then take_screenshot st inp.screenshot_ok else none
  let step : Step :=
    { step_number := st.step_counter
      timestamp := inp.timestamp
      action_type := action_type
      position := some (x, y)
      application := some inp.app
      screenshot := screenshot
      details := [("mouse_button",
                    DValue.s (if action_type = ActionType.click then "left" else "right")),
                  ("modifiers", DValue.mods st.pressed_modifiers)] }
  addStepFuel fuel cfg inp.timestamp st step

/-- Models _handle_copy_action (src/main.py lines 435-455): requires pyperclip;
an empty (or unreadable) clipboard records nothing. -/
def handleCopyAction (fuel : Nat) (cfg : RecorderConfig) (inp : EventInput)
    (st : RecorderState) : Option RecorderState :=
  if cfg.has_pyperclip then
    if inp.clipboard ≠ "" then
      let step : Step :=
        { step_number := st.step_counter
          timestamp := inp.timestamp
          action_type := ActionType.copy
          application := some inp.app
          details := [("content_preview", DValue.s (inp.clipboard.take 100)),
                      ("content_length", DValue.n (inp.clipboard.length : Int))] }
      addStepFuel fuel cfg inp.timestamp st step
    else some st
  else some st

/-- Models _handle_paste_action (src/main.py lines 457-467). -/
def handlePasteAction (fuel : Nat) (cfg : RecorderConfig) (inp : EventInput)
    (st : RecorderState) : Option RecorderState :=
  let step : Step :=
    { step_number := st.step_counter
      timestamp := inp.timestamp
      action_type := ActionType.paste
      application := some inp.app
      details := [] }
  addStepFuel fuel cfg inp.timestamp st step

/-- Python str.lower as used by the code: lower-case each character
(the builtin String.toLower is not used because its implementation does
not reduce inside the kernel). -/
def lowerStr (s : String) : String := String.mk (s.data.map Char.toLower)

/-- Key-string resolution in _handle_key_event (src/main.py lines
351-353): the unicode translation of the event if non-empty, else the
static keycode table. -/
def resolveKey (keycode : Nat) (unicode : String) : String :=
  if unicode = "" then keycode_to_name keycode else unicode

/-- Models _handle_key_event (src/main.py lines 338-389). -/
def handleKeyEvent (fuel : Nat) (cfg : RecorderConfig) (inp : EventInput)
    (st : RecorderState) (keycode : Nat) (unicode : String) :
    Option RecorderState :=
  if ¬ cfg.capture_keystrokes then some st
  else if (modifier_keys keycode).isSome then some st
  else if cfg.capture_clipboard ∧ st.pressed_modifiers = {"cmd"} ∧
      lowerStr (resolveKey keycode unicode) = "c" then
    handleCopyAction fuel cfg inp st
  else if cfg.capture_clipboard ∧ st.pressed_modifiers = {"cmd"} ∧
      lowerStr (resolveKey keycode unicode) = "v" then
    handlePasteAction fuel cfg inp st
  else
    let isCombo := st.pressed_modifiers ≠ ∅
    let key_combo := if isCombo
      then String.intercalate "+"
            (st.pressed_modifiers.sort (fun a b => a ≤ b)) ++ "+" ++
            resolveKey keycode unicode
      else resolveKey keycode unicode
    let step : Step :=
      { step_number := st.step_counter
        timestamp := inp.timestamp
        action_type := if isCombo then ActionType.key_combo
                       else ActionType.key_press
        application := some inp.app
        details := [("key", DValue.s key_combo),
                    ("keycode", DValue.n (keycode : Int)),
                    ("modifiers", DValue.mods st.pressed_modifiers)] }
    addStepFuel fuel cfg inp.timestamp st step

/-- The modifier-set toggle of _handle_modifier_event (src/main.py lines
391-404): recognized keycodes toggle membership, others are ignored. -/
def toggleModifier (keycode : Nat) (ms : Finset String) : Finset String :=
  match modifier_keys keycode with
  | none => ms
  | some name =>
    if name ∈ ms then ms.erase name else insert name ms

/-- Models _handle_modifier_event (src/main.py lines 391-404). -/
def handleModifierEvent (st : RecorderState) (keycode : Nat) : RecorderState :=
  { st with pressed_modifiers := toggleModifier keycode st.pressed_modifiers }

/-- Models _handle_scroll_event (src/main.py lines 406-433).  The scroll delta is
an integer field; |delta| < 0.5 is the source's noise filter.  Note: no
screenshot is taken on this path. -/
def handleScrollEvent (fuel : Nat) (cfg : RecorderConfig) (inp : EventInput)
    (st : RecorderState) (x y : Int) (delta_y : Int) : Option RecorderState :=
  if 2 * delta_y.natAbs < 1 then some st
  else
    let step : Step :=
      { step_number := st.step_counter
        timestamp := inp.timestamp
        action_type := ActionType.scroll
        position := some (x, y)
        application := some inp.app
        details := [("delta_y", DValue.n delta_y),
                    ("direction", DValue.s (if 0 < delta_y then "up" else "down"))] }
    addStepFuel fuel cfg inp.timestamp st step

/-- Models _event_callback (src/main.py lines 283-305): debounce first (dropping
without updating last_event_time), then update last_event_time and
dispatch on the event type; unhandled types fall through with no further
effect. -/
def eventCallback (fuel : Nat) (cfg : RecorderConfig) (inp : EventInput)
    (st : RecorderState) : Option RecorderState :=
  if inp.time - st.last_event_time < cfg.debounce_interval then some st
  else
    let st := { st with last_event_time := inp.time }
    match inp.event with
    | CGEvent.leftMouseDown x y => handleClick fuel cfg inp st x y ActionType.click
    | CGEvent.rightMouseDown x y => handleClick fuel cfg inp st x y ActionType.right_click
    | CGEvent.keyDown keycode unicode => handleKeyEvent fuel cfg inp st keycode unicode
    | CGEvent.flagsChanged keycode => some (handleModifierEvent st keycode)
    | CGEvent.scrollWheel x y delta_y =>
      if cfg.capture_scroll then handleScrollEvent fuel cfg inp st x y delta_y
      else some st
    | CGEvent.otherMouseDown _ _ => some st

/-- The event mask installed by _setup_event_tap (src/main.py lines
242-253): left and right mouse-down, key-down and flags-changed always;
scroll only when capture_scroll is set; other (middle) mouse-down events
are not tapped at all. -/
def eventInMask (cfg : RecorderConfig) : CGEvent → Bool
  | CGEvent.leftMouseDown _ _ => true
  | CGEvent.rightMouseDown _ _ => true
  | CGEvent.otherMouseDown _ _ => false
  | CGEvent.keyDown _ _ => true
  | CGEvent.flagsChanged _ => true
  | CGEvent.scrollWheel _ _ _ => cfg.capture_scroll

/-- One raw OS event as seen by the whole system: events outside the tap
mask never reach the callback and leave the recorder untouched. -/
def processEvent (fuel : Nat) (cfg : RecorderConfig) (inp : EventInput)
    (st : RecorderState) : Option RecorderState :=
  if eventInMask cfg inp.event then eventCallback fuel cfg inp st
  else some st

/-- The state of a freshly constructed StepsRecorder (src/main.py lines
179-197). -/
def initState : RecorderState :=
  { steps := []
    step_counter := 1
    last_event_time := 0
    running := false
    pressed_modifiers := ∅
    saved := none
    reportGenerated := false }

/-- StepsRecorder.start (src/main.py lines 202-218): set running and
record the recorder_started SYSTEM step. -/
def startFuel (fuel : Nat) (cfg : RecorderConfig) (ts : String) :
    Option RecorderState :=
  recordSystemEvent fuel cfg ts { initState with running := true }
    "recorder_started" []

/-- Drive the recorder: start, then feed the event inputs in order. -/
def runEvents (fuel : Nat) (cfg : RecorderConfig) (ts : String)
    (inputs : List EventInput) : Option RecorderState :=
  inputs.foldl (fun acc inp => acc.bind (processEvent fuel cfg inp))
    (startFuel fuel cfg ts)

/-- The step-number invariant of a recorder state: the recorded step
numbers are exactly 1, 2, ..., length, and the counter holds the next
number. -/
def Numbered (st : RecorderState) : Prop :=
  st.steps.map (fun s => s.step_number) = List.range' 1 st.steps.length ∧
  st.step_counter = st.steps.length + 1

/-! Concrete data used by the witness theorems. -/

/-- A configuration with the default option values of RecorderConfig
(debounce interval and times in integer ticks). -/
def cfgW : RecorderConfig :=
  { session_name := "s"
    capture_screenshots := true
    capture_clipboard := true
    capture_keystrokes := true
    capture_scroll := true
    debounce_interval := 2
    max_steps := 1000
    has_pyperclip := true }

/-- cfgW with max_steps set to 1. -/
def cfgM : RecorderConfig := { cfgW with max_steps := 1 }

/-- A concrete application record. -/
def appW : ApplicationInfo := { name := "Safari" }

/-- A concrete dummy step. -/
def dStep (n : Nat) : Step :=
  { step_number := n, timestamp := "t", action_type := ActionType.click }

/-- A state holding one already-recorded step, with the counter at 2. -/
def stOne : RecorderState :=
  { steps := [dStep 1]
    step_counter := 2
    last_event_time := 0
    running := true
    pressed_modifiers := ∅
    saved := none
    reportGenerated := false }

/-! General lemmas about the embedded operations. -/

/-- Appending through _add_step when there is room: the step list grows by
the given step, the counter advances, and the state is additionally saved
when the new length is a multiple of 5. -/
theorem addStepFuel_append (fuel : Nat) (cfg : RecorderConfig) (ts : String)
    (st : RecorderState) (step : Step) (h : st.steps.length < cfg.max_steps) :
    addStepFuel (fuel + 1) cfg ts st step =
      some (if (st.steps ++ [step]).length % 5 = 0
        then saveState cfg { st with steps := st.steps ++ [step],
                                     step_counter := st.step_counter + 1 }
        else { st with steps := st.steps ++ [step],
                       step_counter := st.step_counter + 1 }) := by
  have h' : ¬ cfg.max_steps ≤ st.steps.length := Nat.not_le.mpr h
  simp only [addStepFuel, if_neg h']
  split_ifs <;> rfl

/-- C1: the source intends max-steps to trigger an orderly stop, but once
the step list has reached max_steps, _add_step calls stop, which records
the terminal SYSTEM step through _add_step again with the list still at
capacity: the mutual recursion never completes (no fuel suffices; in
Python this is an unbounded recursion ending in a RecursionError), the
terminal recorder_stopped step is never appended and neither the final
save nor the report is ever reached. -/
theorem addStep_diverges_at_max : ∀ (fuel : Nat) (cfg : RecorderConfig)
    (ts : String) (st : RecorderState) (step : Step),
    cfg.max_steps ≤ st.steps.length →
    addStepFuel fuel cfg ts st step = none := by
  intro fuel
  induction fuel with
  | zero => intro cfg ts st step _; rfl
  | succ n ih =>
    intro cfg ts st step h
    have h1 : cfg.max_steps ≤
        ({ st with running := false } : RecorderState).steps.length := h
    simp only [addStepFuel, if_pos h]
    rw [ih cfg ts _ _ h1]

/-- Witness for C1: with max_steps = 1 and one recorded step, adding a
further step never completes. -/
theorem addStep_diverges_at_max_witness :
    cfgM.max_steps ≤ stOne.steps.length ∧
    addStepFuel 50 cfgM "t1" stOne (dStep 2) = none :=
  ⟨by decide, addStep_diverges_at_max 50 cfgM "t1" stOne (dStep 2) (by decide)⟩

/-- Toggling the same recognized modifier twice restores the set;
unrecognized keycodes never change it. -/
theorem toggleModifier_toggleModifier (keycode : Nat) (ms : Finset String) :
    toggleModifier keycode (toggleModifier keycode ms) = ms := by
  cases h : modifier_keys keycode with
  | none => simp [toggleModifier, h]
  | some name =>
    by_cases hm : name ∈ ms
    · simp [toggleModifier, h, hm, Finset.not_mem_erase,
        Finset.insert_erase hm]
    · simp [toggleModifier, h, hm, Finset.mem_insert_self,
        Finset.erase_insert hm]

/-- C8: delivering an even number of modifier change-notifications for the
same key code returns the modifier set to its original state (recognized
codes toggle membership, unrecognized codes are ignored). -/
theorem modifier_even_toggles (keycode : Nat) (k : Nat) (ms : Finset String) :
    (toggleModifier keycode)^[2 * k] ms = ms := by
  induction k with
  | zero => rfl
  | succ n ih =>
    have h2 : 2 * (n + 1) = 2 * n + 2 := by ring
    have hTwo : (toggleModifier keycode)^[2] ms = ms := by
      rw [Function.iterate_succ_apply', Function.iterate_one]
      exact toggleModifier_toggleModifier keycode ms
    rw [h2, Function.iterate_add_apply, hTwo, ih]

/-- An event arriving too soon after the last accepted one is dropped
entirely: the callback leaves the whole state unchanged. -/
theorem eventCallback_dropped (fuel : Nat) (cfg : RecorderConfig)
    (inp : EventInput) (st : RecorderState)
    (h : inp.time - st.last_event_time < cfg.debounce_interval) :
    eventCallback fuel cfg inp st = some st := by
  unfold eventCallback
  rw [if_pos h]

/-- No path of _add_step (stop included) touches last_event_time. -/
theorem addStepFuel_last_event_time : ∀ (fuel : Nat) (cfg : RecorderConfig)
    (ts : String) (st : RecorderState) (step : Step) (st' : RecorderState),
    addStepFuel fuel cfg ts st step = some st' →
    st'.last_event_time = st.last_event_time := by
  intro fuel
  induction fuel with
  | zero => intro cfg ts st step st' h; cases h
  | succ n ih =>
    intro cfg ts st step st' h
    by_cases hm : cfg.max_steps ≤ st.steps.length
    · simp only [addStepFuel, if_pos hm] at h
      cases he : addStepFuel n cfg ts { st with running := false }
          (stoppedStep { st with running := false } ts) with
      | none => rw [he] at h; cases h
      | some st2 =>
        rw [he] at h
        injection h with h'
        have h2 := ih cfg ts { st with running := false }
          (stoppedStep { st with running := false } ts) st2 he
        rw [← h']
        exact h2
    · rw [addStepFuel_append n cfg ts st step (Nat.not_le.mp hm)] at h
      injection h with h'
      rw [← h']
      by_cases h5 : (st.steps ++ [step]).length % 5 = 0
      · rw [if_pos h5]; rfl
      · rw [if_neg h5]

/-- Models _handle_click preserves last_event_time. -/
theorem handleClick_last_event_time (fuel : Nat) (cfg : RecorderConfig)
    (inp : EventInput) (st : RecorderState) (x y : Int) (a : ActionType)
    (st' : RecorderState) (h : handleClick fuel cfg inp st x y a = some st') :
    st'.last_event_time = st.last_event_time := by
  unfold handleClick at h
  exact addStepFuel_last_event_time fuel cfg inp.timestamp st _ st' h

/-- Models _handle_copy_action preserves last_event_time. -/
theorem handleCopyAction_last_event_time (fuel : Nat) (cfg : RecorderConfig)
    (inp : EventInput) (st : RecorderState) (st' : RecorderState)
    (h : handleCopyAction fuel cfg inp st = some st') :
    st'.last_event_time = st.last_event_time := by
  unfold handleCopyAction at h
  by_cases h1 : cfg.has_pyperclip
  · rw [if_pos h1] at h
    by_cases h2 : inp.clipboard ≠ ""
    · rw [if_pos h2] at h
      exact addStepFuel_last_event_time fuel cfg inp.timestamp st _ st' h
    · rw [if_neg h2] at h; injection h with h'; rw [← h']
  · rw [if_neg h1] at h; injection h with h'; rw [← h']

/-- Models _handle_paste_action preserves last_event_time. -/
theorem handlePasteAction_last_event_time (fuel : Nat) (cfg : RecorderConfig)
    (inp : EventInput) (st : RecorderState) (st' : RecorderState)
    (h : handlePasteAction fuel cfg inp st = some st') :
    st'.last_event_time = st.last_event_time := by
  unfold handlePasteAction at h
  exact addStepFuel_last_event_time fuel cfg inp.timestamp st _ st' h

/-- Models _handle_key_event preserves last_event_time. -/
theorem handleKeyEvent_last_event_time (fuel : Nat) (cfg : RecorderConfig)
    (inp : EventInput) (st : RecorderState) (keycode : Nat) (unicode : String)
    (st' : RecorderState)
    (h : handleKeyEvent fuel cfg inp st keycode unicode = some st') :
    st'.last_event_time = st.last_event_time := by
  unfold handleKeyEvent at h
  by_cases h1 : ¬ cfg.capture_keystrokes
  · rw [if_pos h1] at h; injection h with h'; rw [← h']
  · rw [if_neg h1] at h
    by_cases h2 : (modifier_keys keycode).isSome
    · rw [if_pos h2] at h; injection h with h'; rw [← h']
    · rw [if_neg h2] at h
      by_cases h3 : cfg.capture_clipboard ∧ st.pressed_modifiers = {"cmd"} ∧
          lowerStr (resolveKey keycode unicode) = "c"
      · rw [if_pos h3] at h
        exact handleCopyAction_last_event_time fuel cfg inp st st' h
      · rw [if_neg h3] at h
        by_cases h4 : cfg.capture_clipboard ∧ st.pressed_modifiers = {"cmd"} ∧
            lowerStr (resolveKey keycode unicode) = "v"
        · rw [if_pos h4] at h
          exact handlePasteAction_last_event_time fuel cfg inp st st' h
        · rw [if_neg h4] at h
          exact addStepFuel_last_event_time fuel cfg inp.timestamp st _ st' h

/-- Models _handle_scroll_event preserves last_event_time. -/
theorem handleScrollEvent_last_event_time (fuel : Nat) (cfg : RecorderConfig)
    (inp : EventInput) (st : RecorderState) (x y dy : Int)
    (st' : RecorderState)
    (h : handleScrollEvent fuel cfg inp st x y dy = some st') :
    st'.last_event_time = st.last_event_time := by
  unfold handleScrollEvent at h
  by_cases h1 : 2 * dy.natAbs < 1
  · rw [if_pos h1] at h; injection h with h'; rw [← h']
  · rw [if_neg h1] at h
    exact addStepFuel_last_event_time fuel cfg inp.timestamp st _ st' h

/-- An accepted event always records the new last-accepted time,
whichever branch handles it. -/
theorem eventCallback_accepted_time (fuel : Nat) (cfg : RecorderConfig)
    (inp : EventInput) (st : RecorderState) (st' : RecorderState)
    (hacc : cfg.debounce_interval ≤ inp.time - st.last_event_time)
    (h : eventCallback fuel cfg inp st = some st') :
    st'.last_event_time = inp.time := by
  have hacc' : ¬ inp.time - st.last_event_time < cfg.debounce_interval :=
    not_lt.mpr hacc
  unfold eventCallback at h
  rw [if_neg hacc'] at h
  rcases hev : inp.event with ⟨x, y⟩ | ⟨x, y⟩ | ⟨x, y⟩ | ⟨kc, uni⟩ | kc | ⟨x, y, dy⟩ <;>
    rw [hev] at h
  · exact handleClick_last_event_time fuel cfg inp _ x y _ st' h
  · exact handleClick_last_event_time fuel cfg inp _ x y _ st' h
  · injection h with h'; rw [← h']
  · exact handleKeyEvent_last_event_time fuel cfg inp _ kc uni st' h
  · injection h with h'; rw [← h']; rfl
  · have h2 : (if cfg.capture_scroll
        then handleScrollEvent fuel cfg inp
          { st with last_event_time := inp.time } x y dy
        else some { st with last_event_time := inp.time }) = some st' := h
    by_cases hs : cfg.capture_scroll
    · rw [if_pos hs] at h2
      exact handleScrollEvent_last_event_time fuel cfg inp _ x y dy st' h2
    · rw [if_neg hs] at h2; injection h2 with h'; rw [← h']

/-- C4: for a pair of raw events reaching the callback, an accepted first
event records its arrival time; a second event strictly within the
debounce interval of it is dropped before classification, leaving the
state (the last-accepted time included) unchanged, so the pair yields at
most one step; a second event at or beyond the interval is accepted and
records its own time. -/
theorem debounce_pair (fuel : Nat) (cfg : RecorderConfig)
    (st st₁ : RecorderState) (inp₁ inp₂ : EventInput)
    (hacc : cfg.debounce_interval ≤ inp₁.time - st.last_event_time)
    (h₁ : eventCallback fuel cfg inp₁ st = some st₁) :
    st₁.last_event_time = inp₁.time ∧
    (inp₂.time - inp₁.time < cfg.debounce_interval →
      eventCallback fuel cfg inp₂ st₁ = some st₁) ∧
    (cfg.debounce_interval ≤ inp₂.time - inp₁.time →
      ∀ st₂, eventCallback fuel cfg inp₂ st₁ = some st₂ →
        st₂.last_event_time = inp₂.time) := by
  have hl : st₁.last_event_time = inp₁.time :=
    eventCallback_accepted_time fuel cfg inp₁ st st₁ hacc h₁
  refine ⟨hl, ?_, ?_⟩
  · intro hfast
    apply eventCallback_dropped
    rw [hl]
    exact hfast
  · intro hslow st₂ h₂
    apply eventCallback_accepted_time fuel cfg inp₂ st₁ st₂ _ h₂
    rw [hl]
    exact hslow

/-- A concrete first event (an unrecognized flags-change at time 10). -/
def inpW1 : EventInput :=
  { time := 10, timestamp := "t1", app := appW, clipboard := ""
    screenshot_ok := true, event := CGEvent.flagsChanged 999 }

/-- A concrete second event arriving 1 tick later (within the interval). -/
def inpW2 : EventInput :=
  { time := 11, timestamp := "t2", app := appW, clipboard := ""
    screenshot_ok := true, event := CGEvent.flagsChanged 56 }

/-- The state after inpW1 is accepted from the initial state. -/
def stW1 : RecorderState := { initState with last_event_time := 10 }

/-- Witness for C4 at a concrete pair of events. -/
theorem debounce_pair_witness :
    cfgW.debounce_interval ≤ inpW1.time - initState.last_event_time ∧
    eventCallback 5 cfgW inpW1 initState = some stW1 ∧
    (stW1.last_event_time = inpW1.time ∧
     (inpW2.time - inpW1.time < cfgW.debounce_interval →
       eventCallback 5 cfgW inpW2 stW1 = some stW1) ∧
     (cfgW.debounce_interval ≤ inpW2.time - inpW1.time →
       ∀ st₂, eventCallback 5 cfgW inpW2 stW1 = some st₂ →
         st₂.last_event_time = inpW2.time)) :=
  ⟨by decide, by decide,
   debounce_pair 5 cfgW initState stW1 inpW1 inpW2 (by decide) (by decide)⟩

/-- C10: a modifier change-notification arriving strictly within the
debounce interval of the last accepted event is dropped before
_handle_modifier_event runs: the state, the pressed-modifier set
included, is left unchanged, so debounced modifier notifications never
toggle the set. -/
theorem modifier_event_debounced (fuel : Nat) (cfg : RecorderConfig)
    (inp : EventInput) (st : RecorderState) (keycode : Nat)
    (hev : inp.event = CGEvent.flagsChanged keycode)
    (h : inp.time - st.last_event_time < cfg.debounce_interval) :
    processEvent fuel cfg inp st = some st := by
  unfold processEvent
  rw [hev]
  simp only [eventInMask, if_true]
  exact eventCallback_dropped fuel cfg inp st h

/-- A modifier change-notification for cmd arriving 1 tick after the
last accepted event. -/
def inpW3 : EventInput :=
  { time := 1, timestamp := "t1", app := appW, clipboard := ""
    screenshot_ok := true, event := CGEvent.flagsChanged 55 }

/-- Witness for C10: the debounced cmd notification leaves the initial
state (empty modifier set) unchanged. -/
theorem modifier_event_debounced_witness :
    inpW3.event = CGEvent.flagsChanged 55 ∧
    inpW3.time - initState.last_event_time < cfgW.debounce_interval ∧
    processEvent 5 cfgW inpW3 initState = some initState :=
  ⟨by decide, by decide,
   modifier_event_debounced 5 cfgW inpW3 initState 55 (by decide) (by decide)⟩

/-- C2: stopping a running session that is below the step limit appends
the terminal SYSTEM step and persists the whole session: the saved file
ends with a SYSTEM step whose event is recorder_stopped and whose
total_steps detail equals the number of steps recorded before that
terminal step was appended. -/
theorem stop_final_file (fuel : Nat) (cfg : RecorderConfig) (ts : String)
    (st : RecorderState) (_hrun : st.running = true)
    (h : st.steps.length < cfg.max_steps) :
    ∃ st' last, stopFuel (fuel + 1) cfg ts st = some st' ∧
      st'.saved = some (sessionFileOf cfg (st.steps ++ [last])) ∧
      (sessionFileOf cfg (st.steps ++ [last])).steps.getLast? = some last ∧
      last.action_type = ActionType.system ∧
      last.details.lookup "event" = some (DValue.s "recorder_stopped") ∧
      last.details.lookup "total_steps" =
        some (DValue.n (st.steps.length : Int)) := by
  have h1 : ({ st with running := false } : RecorderState).steps.length <
      cfg.max_steps := h
  simp only [stopFuel]
  rw [addStepFuel_append fuel cfg ts { st with running := false }
    (stoppedStep { st with running := false } ts) h1]
  refine ⟨_, stoppedStep { st with running := false } ts, rfl, ?_, ?_, rfl,
    rfl, rfl⟩
  · by_cases h5 : (st.steps ++ [stoppedStep { st with running := false } ts]).length % 5 = 0
    · rw [if_pos h5]; rfl
    · rw [if_neg h5]; rfl
  · show (st.steps ++ [stoppedStep { st with running := false } ts]).getLast? =
      some (stoppedStep { st with running := false } ts)
    exact List.getLast?_concat _

/-- Witness for C2 at a running one-step state. -/
theorem stop_final_file_witness :
    stOne.running = true ∧ stOne.steps.length < cfgW.max_steps ∧
    (∃ st' last, stopFuel 6 cfgW "t9" stOne = some st' ∧
      st'.saved = some (sessionFileOf cfgW (stOne.steps ++ [last])) ∧
      (sessionFileOf cfgW (stOne.steps ++ [last])).steps.getLast? = some last ∧
      last.action_type = ActionType.system ∧
      last.details.lookup "event" = some (DValue.s "recorder_stopped") ∧
      last.details.lookup "total_steps" =
        some (DValue.n (stOne.steps.length : Int))) :=
  ⟨by decide, by decide, stop_final_file 5 cfgW "t9" stOne (by decide) (by decide)⟩

/-- C9: whenever _add_step completes and the number of recorded steps has
hit a multiple of 5, the durable session file holds the full current
session (an overwrite reflecting every step accepted so far), with no
explicit stop needed. -/
theorem autosave_every_five (fuel : Nat) (cfg : RecorderConfig) (ts : String)
    (st : RecorderState) (step : Step) (st' : RecorderState)
    (h : addStepFuel fuel cfg ts st step = some st')
    (h5 : st'.steps.length % 5 = 0) :
    st'.saved = some (sessionFileOf cfg st'.steps) := by
  cases fuel with
  | zero => cases h
  | succ n =>
    by_cases hm : cfg.max_steps ≤ st.steps.length
    · simp only [addStepFuel, if_pos hm] at h
      cases he : addStepFuel n cfg ts { st with running := false }
          (stoppedStep { st with running := false } ts) with
      | none => rw [he] at h; cases h
      | some st2 =>
        rw [he] at h
        injection h with h'
        rw [← h']
        rfl
    · rw [addStepFuel_append n cfg ts st step (Nat.not_le.mp hm)] at h
      injection h with h'
      by_cases hc : (st.steps ++ [step]).length % 5 = 0
      · rw [if_pos hc] at h'
        rw [← h']
        rfl
      · rw [if_neg hc] at h'
        rw [← h'] at h5
        exact absurd h5 hc

/-- A state holding four already-recorded steps, with the counter at 5. -/
def stFour : RecorderState :=
  { steps := [dStep 1, dStep 2, dStep 3, dStep 4]
    step_counter := 5
    last_event_time := 0
    running := true
    pressed_modifiers := ∅
    saved := none
    reportGenerated := false }

/-- The state after the fifth step is added to stFour: the session file
now holds all five steps. -/
def stFive : RecorderState :=
  { steps := [dStep 1, dStep 2, dStep 3, dStep 4, dStep 5]
    step_counter := 6
    last_event_time := 0
    running := true
    pressed_modifiers := ∅
    saved := some { session := "s", start_time := some "t", total_steps := 5,
                    steps := [dStep 1, dStep 2, dStep 3, dStep 4, dStep 5] }
    reportGenerated := false }

/-- Witness for C9: the fifth accepted step triggers the full-session
write. -/
theorem autosave_every_five_witness :
    addStepFuel 3 cfgW "t" stFour (dStep 5) = some stFive ∧
    stFive.steps.length % 5 = 0 ∧
    stFive.saved = some (sessionFileOf cfgW stFive.steps) :=
  ⟨by decide, by decide,
   autosave_every_five 3 cfgW "t" stFour (dStep 5) stFive (by decide) (by decide)⟩

/-- Appending a step carrying the current counter value preserves the
step-number invariant. -/
theorem numbered_append (st : RecorderState) (step : Step)
    (hN : Numbered st) (hn : step.step_number = st.step_counter) :
    Numbered { st with steps := st.steps ++ [step],
                       step_counter := st.step_counter + 1 } := by
  obtain ⟨h1, h2⟩ := hN
  constructor
  · show (st.steps ++ [step]).map (fun s => s.step_number) =
      List.range' 1 (st.steps ++ [step]).length
    rw [List.map_append, h1]
    simp only [List.map_cons, List.map_nil]
    rw [hn, h2, List.length_append, List.length_cons, List.length_nil,
      Nat.add_zero, List.range'_1_concat, Nat.add_comm 1 st.steps.length]
  · show st.step_counter + 1 = (st.steps ++ [step]).length + 1
    rw [h2, List.length_append, List.length_cons, List.length_nil]

/-- Every completing path of _add_step preserves the step-number
invariant, provided the incoming step carries the current counter
value (as every call site arranges). -/
theorem addStepFuel_numbered : ∀ (fuel : Nat) (cfg : RecorderConfig)
    (ts : String) (st : RecorderState) (step : Step) (st' : RecorderState),
    Numbered st → step.step_number = st.step_counter →
    addStepFuel fuel cfg ts st step = some st' → Numbered st' := by
  intro fuel
  induction fuel with
  | zero => intro cfg ts st step st' _ _ h; cases h
  | succ n ih =>
    intro cfg ts st step st' hN hn h
    by_cases hm : cfg.max_steps ≤ st.steps.length
    · simp only [addStepFuel, if_pos hm] at h
      cases he : addStepFuel n cfg ts { st with running := false }
          (stoppedStep { st with running := false } ts) with
      | none => rw [he] at h; cases h
      | some st2 =>
        rw [he] at h
        injection h with h'
        have hN2 : Numbered st2 := ih cfg ts { st with running := false }
          (stoppedStep { st with running := false } ts) st2 hN rfl he
        rw [← h']
        exact hN2
    · rw [addStepFuel_append n cfg ts st step (Nat.not_le.mp hm)] at h
      injection h with h'
      rw [← h']
      have hA := numbered_append st step hN hn
      by_cases h5 : (st.steps ++ [step]).length % 5 = 0
      · rw [if_pos h5]; exact hA
      · rw [if_neg h5]; exact hA

/-- Click handling preserves the step-number invariant. -/
theorem handleClick_numbered (fuel : Nat) (cfg : RecorderConfig)
    (inp : EventInput) (st : RecorderState) (x y : Int) (a : ActionType)
    (st' : RecorderState) (hN : Numbered st)
    (h : handleClick fuel cfg inp st x y a = some st') : Numbered st' := by
  unfold handleClick at h
  exact addStepFuel_numbered fuel cfg inp.timestamp st _ st' hN rfl h

/-- Copy handling preserves the step-number invariant. -/
theorem handleCopyAction_numbered (fuel : Nat) (cfg : RecorderConfig)
    (inp : EventInput) (st : RecorderState) (st' : RecorderState)
    (hN : Numbered st) (h : handleCopyAction fuel cfg inp st = some st') :
    Numbered st' := by
  unfold handleCopyAction at h
  by_cases h1 : cfg.has_pyperclip
  · rw [if_pos h1] at h
    by_cases h2 : inp.clipboard ≠ ""
    · rw [if_pos h2] at h
      exact addStepFuel_numbered fuel cfg inp.timestamp st _ st' hN rfl h
    · rw [if_neg h2] at h; injection h with h'; rw [← h']; exact hN
  · rw [if_neg h1] at h; injection h with h'; rw [← h']; exact hN

/-- Paste handling preserves the step-number invariant. -/
theorem handlePasteAction_numbered (fuel : Nat) (cfg : RecorderConfig)
    (inp : EventInput) (st : RecorderState) (st' : RecorderState)
    (hN : Numbered st) (h : handlePasteAction fuel cfg inp st = some st') :
    Numbered st' := by
  unfold handlePasteAction at h
  exact addStepFuel_numbered fuel cfg inp.timestamp st _ st' hN rfl h

/-- Key handling preserves the step-number invariant. -/
theorem handleKeyEvent_numbered (fuel : Nat) (cfg : RecorderConfig)
    (inp : EventInput) (st : RecorderState) (keycode : Nat) (unicode : String)
    (st' : RecorderState) (hN : Numbered st)
    (h : handleKeyEvent fuel cfg inp st keycode unicode = some st') :
    Numbered st' := by
  unfold handleKeyEvent at h
  by_cases h1 : ¬ cfg.capture_keystrokes
  · rw [if_pos h1] at h; injection h with h'; rw [← h']; exact hN
  · rw [if_neg h1] at h
    by_cases h2 : (modifier_keys keycode).isSome
    · rw [if_pos h2] at h; injection h with h'; rw [← h']; exact hN
    · rw [if_neg h2] at h
      by_cases h3 : cfg.capture_clipboard ∧ st.pressed_modifiers = {"cmd"} ∧
          lowerStr (resolveKey keycode unicode) = "c"
      · rw [if_pos h3] at h
        exact handleCopyAction_numbered fuel cfg inp st st' hN h
      · rw [if_neg h3] at h
        by_cases h4 : cfg.capture_clipboard ∧ st.pressed_modifiers = {"cmd"} ∧
            lowerStr (resolveKey keycode unicode) = "v"
        · rw [if_pos h4] at h
          exact handlePasteAction_numbered fuel cfg inp st st' hN h
        · rw [if_neg h4] at h
          exact addStepFuel_numbered fuel cfg inp.timestamp st _ st' hN rfl h

/-- Scroll handling preserves the step-number invariant. -/
theorem handleScrollEvent_numbered (fuel : Nat) (cfg : RecorderConfig)
    (inp : EventInput) (st : RecorderState) (x y dy : Int)
    (st' : RecorderState) (hN : Numbered st)
    (h : handleScrollEvent fuel cfg inp st x y dy = some st') :
    Numbered st' := by
  unfold handleScrollEvent at h
  by_cases h1 : 2 * dy.natAbs < 1
  · rw [if_pos h1] at h; injection h with h'; rw [← h']; exact hN
  · rw [if_neg h1] at h
    exact addStepFuel_numbered fuel cfg inp.timestamp st _ st' hN rfl h

/-- Modifier handling preserves the step-number invariant. -/
theorem handleModifierEvent_numbered (st : RecorderState) (keycode : Nat)
    (hN : Numbered st) : Numbered (handleModifierEvent st keycode) := hN

/-- The event callback preserves the step-number invariant. -/
theorem eventCallback_numbered (fuel : Nat) (cfg : RecorderConfig)
    (inp : EventInput) (st : RecorderState) (st' : RecorderState)
    (hN : Numbered st) (h : eventCallback fuel cfg inp st = some st') :
    Numbered st' := by
  unfold eventCallback at h
  by_cases hd : inp.time - st.last_event_time < cfg.debounce_interval
  · rw [if_pos hd] at h; injection h with h'; rw [← h']; exact hN
  · rw [if_neg hd] at h
    have hNt : Numbered { st with last_event_time := inp.time } := hN
    rcases hev : inp.event with ⟨x, y⟩ | ⟨x, y⟩ | ⟨x, y⟩ | ⟨kc, uni⟩ | kc | ⟨x, y, dy⟩ <;>
      rw [hev] at h
    · exact handleClick_numbered fuel cfg inp _ x y _ st' hNt h
    · exact handleClick_numbered fuel cfg inp _ x y _ st' hNt h
    · injection h with h'; rw [← h']; exact hNt
    · exact handleKeyEvent_numbered fuel cfg inp _ kc uni st' hNt h
    · injection h with h'; rw [← h']
      exact handleModifierEvent_numbered _ kc hNt
    · have h2 : (if cfg.capture_scroll
          then handleScrollEvent fuel cfg inp
            { st with last_event_time := inp.time } x y dy
          else some { st with last_event_time := inp.time }) = some st' := h
      by_cases hs : cfg.capture_scroll
      · rw [if_pos hs] at h2
        exact handleScrollEvent_numbered fuel cfg inp _ x y dy st' hNt h2
      · rw [if_neg hs] at h2; injection h2 with h'; rw [← h']; exact hNt

/-- Processing one raw event preserves the step-number invariant. -/
theorem processEvent_numbered (fuel : Nat) (cfg : RecorderConfig)
    (inp : EventInput) (st : RecorderState) (st' : RecorderState)
    (hN : Numbered st) (h : processEvent fuel cfg inp st = some st') :
    Numbered st' := by
  unfold processEvent at h
  by_cases hm : eventInMask cfg inp.event
  · rw [if_pos hm] at h
    exact eventCallback_numbered fuel cfg inp st st' hN h
  · rw [if_neg hm] at h; injection h with h'; rw [← h']; exact hN

/-- Folding the event pipeline from a failed state stays failed. -/
theorem foldl_bind_none (fuel : Nat) (cfg : RecorderConfig) :
    ∀ (inputs : List EventInput),
    List.foldl (fun acc inp => acc.bind (processEvent fuel cfg inp)) none
      inputs = none := by
  intro inputs
  induction inputs with
  | nil => rfl
  | cons i is ih => exact ih

/-- Folding the event pipeline preserves the step-number invariant. -/
theorem foldl_bind_numbered (fuel : Nat) (cfg : RecorderConfig) :
    ∀ (inputs : List EventInput) (st₀ st' : RecorderState), Numbered st₀ →
    List.foldl (fun acc inp => acc.bind (processEvent fuel cfg inp))
      (some st₀) inputs = some st' →
    Numbered st' := by
  intro inputs
  induction inputs with
  | nil => intro st₀ st' hN h; injection h with h'; rw [← h']; exact hN
  | cons i is ih =>
    intro st₀ st' hN h
    have h2 : List.foldl (fun acc inp => acc.bind (processEvent fuel cfg inp))
        (processEvent fuel cfg i st₀) is = some st' := h
    cases hp : processEvent fuel cfg i st₀ with
    | none =>
      rw [hp, foldl_bind_none fuel cfg is] at h2
      cases h2
    | some st₁ =>
      rw [hp] at h2
      exact ih st₁ st' (processEvent_numbered fuel cfg i st₀ st₁ hN hp) h2

/-- The freshly constructed recorder satisfies the step-number
invariant. -/
theorem initState_numbered : Numbered initState := ⟨rfl, rfl⟩

/-- Starting the recorder (which records the recorder_started step)
preserves the step-number invariant. -/
theorem startFuel_numbered (fuel : Nat) (cfg : RecorderConfig) (ts : String)
    (st₀ : RecorderState) (h : startFuel fuel cfg ts = some st₀) :
    Numbered st₀ := by
  unfold startFuel recordSystemEvent at h
  exact addStepFuel_numbered fuel cfg ts { initState with running := true }
    _ st₀ initState_numbered rfl h

/-- C3: however the recorder is driven, the recorded step numbers are
exactly 1, 2, ..., length (strictly increasing, 1-based, no duplicates,
no gaps): every appended step carries the current counter value and the
counter, always one beyond the number of recorded steps, advances exactly
once per appended step. -/
theorem step_numbers_gapless (fuel : Nat) (cfg : RecorderConfig) (ts : String)
    (inputs : List EventInput) (st' : RecorderState)
    (h : runEvents fuel cfg ts inputs = some st') :
    st'.steps.map (fun s => s.step_number) = List.range' 1 st'.steps.length ∧
    st'.step_counter = st'.steps.length + 1 := by
  unfold runEvents at h
  cases hs : startFuel fuel cfg ts with
  | none => rw [hs, foldl_bind_none fuel cfg inputs] at h; cases h
  | some st₀ =>
    rw [hs] at h
    exact foldl_bind_numbered fuel cfg inputs st₀ st'
      (startFuel_numbered fuel cfg ts st₀ hs) h

/-- The recorder_started step of a session started at time t0. -/
def startStepW : Step :=
  { step_number := 1, timestamp := "t0", action_type := ActionType.system
    details := [("event", DValue.s "recorder_started")] }

/-- A concrete left click at (3, 4), with the screenshot capture
failing. -/
def iC3 : EventInput :=
  { time := 10, timestamp := "t1", app := appW, clipboard := ""
    screenshot_ok := false, event := CGEvent.leftMouseDown 3 4 }

/-- The recorder state after starting and processing iC3. -/
def stC3 : RecorderState :=
  { steps := [startStepW,
      { step_number := 2, timestamp := "t1", action_type := ActionType.click
        position := some (3, 4), application := some appW, screenshot := none
        details := [("mouse_button", DValue.s "left"),
                    ("modifiers", DValue.mods ∅)] }]
    step_counter := 3
    last_event_time := 10
    running := true
    pressed_modifiers := ∅
    saved := none
    reportGenerated := false }

/-- Witness for C3 on a concrete run. -/
theorem step_numbers_gapless_witness :
    runEvents 6 cfgW "t0" [iC3] = some stC3 ∧
    (stC3.steps.map (fun s => s.step_number) = List.range' 1 stC3.steps.length ∧
     stC3.step_counter = stC3.steps.length + 1) :=
  ⟨by decide, step_numbers_gapless 6 cfgW "t0" [iC3] stC3 (by decide)⟩

/-- An accepted key-down event reaches _handle_key_event on the state with
the refreshed last-accepted time. -/
theorem processEvent_keyDown (fuel : Nat) (cfg : RecorderConfig)
    (inp : EventInput) (st : RecorderState) (keycode : Nat) (unicode : String)
    (hev : inp.event = CGEvent.keyDown keycode unicode)
    (hacc : ¬ inp.time - st.last_event_time < cfg.debounce_interval) :
    processEvent fuel cfg inp st =
      handleKeyEvent fuel cfg inp { st with last_event_time := inp.time }
        keycode unicode := by
  unfold processEvent eventCallback
  rw [hev]
  rw [if_pos (show eventInMask cfg (CGEvent.keyDown keycode unicode) = true
    from rfl)]
  rw [if_neg hacc]

/-- An accepted left mouse-down event reaches _handle_click on the state
with the refreshed last-accepted time. -/
theorem processEvent_leftMouseDown (fuel : Nat) (cfg : RecorderConfig)
    (inp : EventInput) (st : RecorderState) (x y : Int)
    (hev : inp.event = CGEvent.leftMouseDown x y)
    (hacc : ¬ inp.time - st.last_event_time < cfg.debounce_interval) :
    processEvent fuel cfg inp st =
      handleClick fuel cfg inp { st with last_event_time := inp.time } x y
        ActionType.click := by
  unfold processEvent eventCallback
  rw [hev]
  rw [if_pos (show eventInMask cfg (CGEvent.leftMouseDown x y) = true
    from rfl)]
  rw [if_neg hacc]

/-- An accepted right mouse-down event reaches _handle_click on the state
with the refreshed last-accepted time. -/
theorem processEvent_rightMouseDown (fuel : Nat) (cfg : RecorderConfig)
    (inp : EventInput) (st : RecorderState) (x y : Int)
    (hev : inp.event = CGEvent.rightMouseDown x y)
    (hacc : ¬ inp.time - st.last_event_time < cfg.debounce_interval) :
    processEvent fuel cfg inp st =
      handleClick fuel cfg inp { st with last_event_time := inp.time } x y
        ActionType.right_click := by
  unfold processEvent eventCallback
  rw [hev]
  rw [if_pos (show eventInMask cfg (CGEvent.rightMouseDown x y) = true
    from rfl)]
  rw [if_neg hacc]

/-- A middle (other) mouse-down event is outside the tap mask: the whole
system leaves the state untouched. -/
theorem processEvent_otherMouseDown (fuel : Nat) (cfg : RecorderConfig)
    (inp : EventInput) (st : RecorderState) (x y : Int)
    (hev : inp.event = CGEvent.otherMouseDown x y) :
    processEvent fuel cfg inp st = some st := by
  unfold processEvent
  rw [hev]
  rw [if_neg (show ¬ eventInMask cfg (CGEvent.otherMouseDown x y) = true
    from by simp [eventInMask])]

/-- An accepted scroll event (with scroll capture on) reaches
_handle_scroll_event on the state with the refreshed last-accepted
time. -/
theorem processEvent_scrollWheel (fuel : Nat) (cfg : RecorderConfig)
    (inp : EventInput) (st : RecorderState) (x y dy : Int)
    (hev : inp.event = CGEvent.scrollWheel x y dy)
    (hacc : ¬ inp.time - st.last_event_time < cfg.debounce_interval)
    (hs : cfg.capture_scroll = true) :
    processEvent fuel cfg inp st =
      handleScrollEvent fuel cfg inp { st with last_event_time := inp.time }
        x y dy := by
  unfold processEvent eventCallback
  rw [hev]
  rw [if_pos (show eventInMask cfg (CGEvent.scrollWheel x y dy) = true
    from by simp [eventInMask, hs])]
  rw [if_neg hacc]
  show (if cfg.capture_scroll
    then handleScrollEvent fuel cfg inp
      { st with last_event_time := inp.time } x y dy
    else some { st with last_event_time := inp.time }) = _
  rw [if_pos hs]

/-- C5: an accepted cmd+C key-down (modifier set exactly cmd, resolved key
c case-insensitively) with clipboard capture enabled and non-empty
clipboard content records a COPY step whose content_length detail is the
length of the captured content and whose content_preview detail is its
first 100 characters. -/
theorem copy_combo_step (fuel : Nat) (cfg : RecorderConfig)
    (inp : EventInput) (st : RecorderState) (keycode : Nat) (unicode : String)
    (hks : cfg.capture_keystrokes = true)
    (hcc : cfg.capture_clipboard = true)
    (hpy : cfg.has_pyperclip = true)
    (hmod : modifier_keys keycode = none)
    (hcmd : st.pressed_modifiers = {"cmd"})
    (hkey : lowerStr (resolveKey keycode unicode) = "c")
    (hcb : inp.clipboard ≠ "")
    (hev : inp.event = CGEvent.keyDown keycode unicode)
    (hacc : cfg.debounce_interval ≤ inp.time - st.last_event_time)
    (hroom : st.steps.length < cfg.max_steps) :
    ∃ st' step, processEvent (fuel + 1) cfg inp st = some st' ∧
      st'.steps = st.steps ++ [step] ∧
      step.action_type = ActionType.copy ∧
      step.details.lookup "content_preview" =
        some (DValue.s (inp.clipboard.take 100)) ∧
      step.details.lookup "content_length" =
        some (DValue.n (inp.clipboard.length : Int)) := by
  have hacc' : ¬ inp.time - st.last_event_time < cfg.debounce_interval :=
    not_lt.mpr hacc
  rw [processEvent_keyDown (fuel + 1) cfg inp st keycode unicode hev hacc']
  unfold handleKeyEvent
  rw [if_neg (show ¬ ¬ cfg.capture_keystrokes = true from by simp [hks])]
  rw [if_neg (show ¬ (modifier_keys keycode).isSome = true from by
    simp [hmod])]
  rw [if_pos (show cfg.capture_clipboard = true ∧
      ({ st with last_event_time := inp.time } : RecorderState).pressed_modifiers = {"cmd"} ∧
      lowerStr (resolveKey keycode unicode) = "c" from ⟨hcc, hcmd, hkey⟩)]
  unfold handleCopyAction
  rw [if_pos hpy, if_pos hcb]
  rw [addStepFuel_append fuel cfg inp.timestamp _ _
    (show ({ st with last_event_time := inp.time } : RecorderState).steps.length <
      cfg.max_steps from hroom)]
  refine ⟨_,
    { step_number := st.step_counter
      timestamp := inp.timestamp
      action_type := ActionType.copy
      application := some inp.app
      details := [("content_preview", DValue.s (inp.clipboard.take 100)),
                  ("content_length", DValue.n (inp.clipboard.length : Int))] },
    rfl, ?_, rfl, rfl, rfl⟩
  split_ifs <;> rfl

/-- The state whose only peculiarity is that cmd is held. -/
def stCmd : RecorderState := { initState with pressed_modifiers := {"cmd"} }

/-- A concrete cmd+C key-down with clipboard content available. -/
def iC5 : EventInput :=
  { time := 10, timestamp := "t3", app := appW, clipboard := "hello world"
    screenshot_ok := true, event := CGEvent.keyDown 8 "c" }

/-- Witness for C5 at a concrete cmd+C press. -/
theorem copy_combo_step_witness :
    cfgW.capture_keystrokes = true ∧ cfgW.capture_clipboard = true ∧
    cfgW.has_pyperclip = true ∧ modifier_keys 8 = none ∧
    stCmd.pressed_modifiers = {"cmd"} ∧
    lowerStr (resolveKey 8 "c") = "c" ∧ iC5.clipboard ≠ "" ∧
    iC5.event = CGEvent.keyDown 8 "c" ∧
    cfgW.debounce_interval ≤ iC5.time - stCmd.last_event_time ∧
    stCmd.steps.length < cfgW.max_steps ∧
    (∃ st' step, processEvent 6 cfgW iC5 stCmd = some st' ∧
      st'.steps = stCmd.steps ++ [step] ∧
      step.action_type = ActionType.copy ∧
      step.details.lookup "content_preview" =
        some (DValue.s (iC5.clipboard.take 100)) ∧
      step.details.lookup "content_length" =
        some (DValue.n (iC5.clipboard.length : Int))) :=
  ⟨by decide, by decide, by decide, by decide, by decide, by decide,
   by decide, by decide, by decide, by decide,
   copy_combo_step 5 cfgW iC5 stCmd 8 "c" (by decide) (by decide) (by decide)
     (by decide) (by decide) (by decide) (by decide) (by decide) (by decide)
     (by decide)⟩

/-- A concrete middle mouse-down, spaced far beyond the debounce
interval. -/
def iMid : EventInput :=
  { time := 10, timestamp := "t1", app := appW, clipboard := ""
    screenshot_ok := true, event := CGEvent.otherMouseDown 3 4 }

/-- Counterexample for C6: a middle mouse-down that would pass the
debounce check produces no step at all (the event mask omits
kCGEventOtherMouseDown and the callback has no branch for it), so no
MIDDLE_CLICK step is ever recorded. -/
theorem middle_click_no_step :
    cfgW.debounce_interval ≤ iMid.time - initState.last_event_time ∧
    processEvent 5 cfgW iMid initState = some initState ∧
    initState.steps = [] := by decide

/-- C6 amended: accepted left and right mouse-down events map 1:1 to
click and right_click steps carrying the event location and the current
modifier snapshot; middle (other) mouse-down events are not captured at
all and yield no step. -/
theorem mouse_down_mapping (fuel : Nat) (cfg : RecorderConfig)
    (inp : EventInput) (st : RecorderState) (x y : Int)
    (hacc : cfg.debounce_interval ≤ inp.time - st.last_event_time)
    (hroom : st.steps.length < cfg.max_steps) :
    (inp.event = CGEvent.leftMouseDown x y →
      ∃ st' step, processEvent (fuel + 1) cfg inp st = some st' ∧
        st'.steps = st.steps ++ [step] ∧
        step.action_type = ActionType.click ∧
        step.position = some (x, y) ∧
        step.details.lookup "modifiers" =
          some (DValue.mods st.pressed_modifiers)) ∧
    (inp.event = CGEvent.rightMouseDown x y →
      ∃ st' step, processEvent (fuel + 1) cfg inp st = some st' ∧
        st'.steps = st.steps ++ [step] ∧
        step.action_type = ActionType.right_click ∧
        step.position = some (x, y) ∧
        step.details.lookup "modifiers" =
          some (DValue.mods st.pressed_modifiers)) ∧
    (inp.event = CGEvent.otherMouseDown x y →
      processEvent (fuel + 1) cfg inp st = some st) := by
  have hacc' : ¬ inp.time - st.last_event_time < cfg.debounce_interval :=
    not_lt.mpr hacc
  refine ⟨?_, ?_, ?_⟩
  · intro hev
    rw [processEvent_leftMouseDown (fuel + 1) cfg inp st x y hev hacc']
    unfold handleClick
    rw [addStepFuel_append fuel cfg inp.timestamp _ _
      (show ({ st with last_event_time := inp.time } : RecorderState).steps.length <
        cfg.max_steps from hroom)]
    refine ⟨_,
      { step_number := st.step_counter
        timestamp := inp.timestamp
        action_type := ActionType.click
        position := some (x, y)
        application := some inp.app
        screenshot := if cfg.capture_screenshots
          then take_screenshot { st with last_event_time := inp.time }
            inp.screenshot_ok
          else none
        details := [("mouse_button",
                      DValue.s (if ActionType.click = ActionType.click
                        then "left" else "right")),
                    ("modifiers", DValue.mods st.pressed_modifiers)] },
      rfl, ?_, rfl, rfl, rfl⟩
    split_ifs <;> rfl
  · intro hev
    rw [processEvent_rightMouseDown (fuel + 1) cfg inp st x y hev hacc']
    unfold handleClick
    rw [addStepFuel_append fuel cfg inp.timestamp _ _
      (show ({ st with last_event_time := inp.time } : RecorderState).steps.length <
        cfg.max_steps from hroom)]
    refine ⟨_,
      { step_number := st.step_counter
        timestamp := inp.timestamp
        action_type := ActionType.right_click
        position := some (x, y)
        application := some inp.app
        screenshot := if cfg.capture_screenshots
          then take_screenshot { st with last_event_time := inp.time }
            inp.screenshot_ok
          else none
        details := [("mouse_button",
                      DValue.s (if ActionType.right_click = ActionType.click
                        then "left" else "right")),
                    ("modifiers", DValue.mods st.pressed_modifiers)] },
      rfl, ?_, rfl, rfl, rfl⟩
    split_ifs <;> rfl
  · intro hev
    exact processEvent_otherMouseDown (fuel + 1) cfg inp st x y hev

/-- A concrete left mouse-down at (7, 8). -/
def iC6 : EventInput :=
  { time := 10, timestamp := "t4", app := appW, clipboard := ""
    screenshot_ok := true, event := CGEvent.leftMouseDown 7 8 }

/-- Witness for the amended C6 at a concrete left click. -/
theorem mouse_down_mapping_witness :
    cfgW.debounce_interval ≤ iC6.time - initState.last_event_time ∧
    initState.steps.length < cfgW.max_steps ∧
    ((iC6.event = CGEvent.leftMouseDown 7 8 →
      ∃ st' step, processEvent 6 cfgW iC6 initState = some st' ∧
        st'.steps = initState.steps ++ [step] ∧
        step.action_type = ActionType.click ∧
        step.position = some (7, 8) ∧
        step.details.lookup "modifiers" =
          some (DValue.mods initState.pressed_modifiers)) ∧
     (iC6.event = CGEvent.rightMouseDown 7 8 →
      ∃ st' step, processEvent 6 cfgW iC6 initState = some st' ∧
        st'.steps = initState.steps ++ [step] ∧
        step.action_type = ActionType.right_click ∧
        step.position = some (7, 8) ∧
        step.details.lookup "modifiers" =
          some (DValue.mods initState.pressed_modifiers)) ∧
     (iC6.event = CGEvent.otherMouseDown 7 8 →
      processEvent 6 cfgW iC6 initState = some initState)) :=
  ⟨by decide, by decide,
   mouse_down_mapping 5 cfgW iC6 initState 7 8 (by decide) (by decide)⟩

/-- A concrete scroll event (delta 2) with screenshots enabled and the
capture provider working. -/
def iScroll : EventInput :=
  { time := 10, timestamp := "t5", app := appW, clipboard := ""
    screenshot_ok := true, event := CGEvent.scrollWheel 3 4 2 }

/-- Counterexample for C7: an accepted scroll event with screenshot
capture enabled and a working capture provider records its step with an
empty screenshot field: _handle_scroll_event never requests a screenshot,
although scroll carries a position. -/
theorem scroll_step_without_screenshot :
    cfgW.capture_screenshots = true ∧ iScroll.screenshot_ok = true ∧
    (processEvent 5 cfgW iScroll initState).map
      (fun s => s.steps.map (fun p => (p.action_type, p.screenshot))) =
      some [(ActionType.scroll, none)] := by decide

/-- C7 amended: only click and right-click request a screenshot; when
screenshot capture is enabled they use the deterministic relative path
screenshots/screenshot_NNNN.png, NNNN being the next step number zero
padded to width 4, and on capture failure the step is still recorded with
an empty screenshot field; scroll steps are always recorded with an empty
screenshot field, although they carry a position. -/
theorem screenshot_correlation (fuel : Nat) (cfg : RecorderConfig)
    (inp : EventInput) (st : RecorderState) (x y : Int)
    (hacc : cfg.debounce_interval ≤ inp.time - st.last_event_time)
    (hroom : st.steps.length < cfg.max_steps)
    (hshot : cfg.capture_screenshots = true) :
    ((inp.event = CGEvent.leftMouseDown x y ∨
      inp.event = CGEvent.rightMouseDown x y) →
      ∃ st' step, processEvent (fuel + 1) cfg inp st = some st' ∧
        st'.steps = st.steps ++ [step] ∧
        step.step_number = st.step_counter ∧
        step.screenshot = (if inp.screenshot_ok
          then some ("screenshots/screenshot_" ++ pad4 st.step_counter ++ ".png")
          else none)) ∧
    (∀ dy : Int, inp.event = CGEvent.scrollWheel x y dy →
      cfg.capture_scroll = true → dy ≠ 0 →
      ∃ st' step, processEvent (fuel + 1) cfg inp st = some st' ∧
        st'.steps = st.steps ++ [step] ∧
        step.action_type = ActionType.scroll ∧
        step.screenshot = none) := by
  have hacc' : ¬ inp.time - st.last_event_time < cfg.debounce_interval :=
    not_lt.mpr hacc
  constructor
  · intro hev
    have hroom' : ({ st with last_event_time := inp.time } :
        RecorderState).steps.length < cfg.max_steps := hroom
    have hscr : (if cfg.capture_screenshots
        then take_screenshot { st with last_event_time := inp.time }
          inp.screenshot_ok
        else none) =
        (if inp.screenshot_ok
          then some ("screenshots/screenshot_" ++ pad4 st.step_counter ++ ".png")
          else none) := by
      rw [hshot]
      rw [if_pos rfl]
      rfl
    cases hev with
    | inl hev =>
      rw [processEvent_leftMouseDown (fuel + 1) cfg inp st x y hev hacc']
      unfold handleClick
      rw [addStepFuel_append fuel cfg inp.timestamp _ _ hroom']
      refine ⟨_,
        { step_number := st.step_counter
          timestamp := inp.timestamp
          action_type := ActionType.click
          position := some (x, y)
          application := some inp.app
          screenshot := if cfg.capture_screenshots
            then take_screenshot { st with last_event_time := inp.time }
              inp.screenshot_ok
            else none
          details := [("mouse_button",
                        DValue.s (if ActionType.click = ActionType.click
                          then "left" else "right")),
                      ("modifiers", DValue.mods st.pressed_modifiers)] },
        rfl, ?_, rfl, hscr⟩
      split_ifs <;> rfl
    | inr hev =>
      rw [processEvent_rightMouseDown (fuel + 1) cfg inp st x y hev hacc']
      unfold handleClick
      rw [addStepFuel_append fuel cfg inp.timestamp _ _ hroom']
      refine ⟨_,
        { step_number := st.step_counter
          timestamp := inp.timestamp
          action_type := ActionType.right_click
          position := some (x, y)
          application := some inp.app
          screenshot := if cfg.capture_screenshots
            then take_screenshot { st with last_event_time := inp.time }
              inp.screenshot_ok
            else none
          details := [("mouse_button",
                        DValue.s (if ActionType.right_click = ActionType.click
                          then "left" else "right")),
                      ("modifiers", DValue.mods st.pressed_modifiers)] },
        rfl, ?_, rfl, hscr⟩
      split_ifs <;> rfl
  · intro dy hev hs hdy
    rw [processEvent_scrollWheel (fuel + 1) cfg inp st x y dy hev hacc' hs]
    unfold handleScrollEvent
    rw [if_neg (show ¬ 2 * dy.natAbs < 1 by omega)]
    rw [addStepFuel_append fuel cfg inp.timestamp _ _
      (show ({ st with last_event_time := inp.time } : RecorderState).steps.length <
        cfg.max_steps from hroom)]
    refine ⟨_,
      { step_number := st.step_counter
        timestamp := inp.timestamp
        action_type := ActionType.scroll
        position := some (x, y)
        application := some inp.app
        details := [("delta_y", DValue.n dy),
                    ("direction", DValue.s (if 0 < dy then "up" else "down"))] },
      rfl, ?_, rfl, rfl⟩
    split_ifs <;> rfl

/-- A concrete left mouse-down at (1, 2) with the capture provider
failing. -/
def iC7 : EventInput :=
  { time := 10, timestamp := "t6", app := appW, clipboard := ""
    screenshot_ok := false, event := CGEvent.leftMouseDown 1 2 }

/-- Witness for the amended C7 at a concrete click whose screenshot
capture fails. -/
theorem screenshot_correlation_witness :
    cfgW.debounce_interval ≤ iC7.time - initState.last_event_time ∧
    initState.steps.length < cfgW.max_steps ∧
    cfgW.capture_screenshots = true ∧
    (((iC7.event = CGEvent.leftMouseDown 1 2 ∨
       iC7.event = CGEvent.rightMouseDown 1 2) →
      ∃ st' step, processEvent 6 cfgW iC7 initState = some st' ∧
        st'.steps = initState.steps ++ [step] ∧
        step.step_number = initState.step_counter ∧
        step.screenshot = (if iC7.screenshot_ok
          then some ("screenshots/screenshot_" ++
            pad4 initState.step_counter ++ ".png")
          else none)) ∧
     (∀ dy : Int, iC7.event = CGEvent.scrollWheel 1 2 dy →
      cfgW.capture_scroll = true → dy ≠ 0 →
      ∃ st' step, processEvent 6 cfgW iC7 initState = some st' ∧
        st'.steps = initState.steps ++ [step] ∧
        step.action_type = ActionType.scroll ∧
        step.screenshot = none)) :=
  ⟨by decide, by decide, by decide,
   screenshot_correlation 5 cfgW iC7 initState 1 2 (by decide) (by decide)
     (by decide)⟩

end StepsRecorder
